import Mathlib

/- Verification of the bear-query core: schema discovery, normalized-view
synthesis, the query gateway, and result tabulization (conversion of SQLite
rows into a typed column-oriented table).

The embedding mirrors src/dataframe.rs, src/schema.rs and src/lib.rs.
External collaborators (rusqlite connections/statements and the polars
DataFrame constructor) are modelled by their documented contracts: a
statement is a list of column names plus a stream of row results, a cell
read either yields a raw tagged value or fails, and DataFrame construction
checks that all columns have consistent lengths. -/

set_option linter.unusedVariables false

/-- Model of rusqlite::Error. `QueryReturnedNoRows` is the variant the
schema-discovery code constructs explicitly (src/schema.rs); every other
engine error is collapsed into `Other`. -/
inductive RusqliteError
  | QueryReturnedNoRows
  | Other (msg : String)
deriving DecidableEq, Repr

/-- Model of polars::PolarsError as produced by DataFrame::new: the only
failure of the modelled Table-assembly step is structurally inconsistent
column lengths. -/
inductive PolarsErr
  | ShapeMismatch
deriving DecidableEq, Repr

/-- The BearError enum of src/lib.rs lines 190-204: three variants,
NoHomeDirectory, SqlError wrapping the raw rusqlite error, and PolarsError
wrapping the polars error. -/
inductive BearError
  | NoHomeDirectory
  | SqlError (source : RusqliteError)
  | PolarsError (source : PolarsErr)
deriving DecidableEq, Repr

/-- The Unicode replacement character U+FFFD. -/
def replacementChar : Char := Char.ofNat 0xFFFD

/-- Is `b` a UTF-8 continuation byte (0x80..0xBF)? -/
def isUtf8Cont (b : Nat) : Bool := 0x80 ≤ b && b ≤ 0xBF

/-- Valid second byte of a three-byte UTF-8 sequence with lead byte `b0`
(excludes overlong encodings and surrogates). -/
def validSecondOf3 (b0 b1 : Nat) : Bool :=
  if b0 == 0xE0 then 0xA0 ≤ b1 && b1 ≤ 0xBF
  else if b0 == 0xED then 0x80 ≤ b1 && b1 ≤ 0x9F
  else isUtf8Cont b1

/-- Valid second byte of a four-byte UTF-8 sequence with lead byte `b0`
(excludes overlong encodings and values above U+10FFFF). -/
def validSecondOf4 (b0 b1 : Nat) : Bool :=
  if b0 == 0xF0 then 0x90 ≤ b1 && b1 ≤ 0xBF
  else if b0 == 0xF4 then 0x80 ≤ b1 && b1 ≤ 0x8F
  else isUtf8Cont b1

/-- Model of Rust std's String::from_utf8_lossy at the character level:
decode well-formed UTF-8 sequences, and replace each maximal valid prefix
of an ill-formed sequence (at least one byte) with U+FFFD, per the
documented substitution-of-maximal-subparts policy. -/
def utf8LossyChars : List Nat → List Char
  | [] => []
  | b0 :: rest =>
    if b0 < 0x80 then Char.ofNat b0 :: utf8LossyChars rest
    else if 0xC2 ≤ b0 && b0 ≤ 0xDF then
      match rest with
      | [] => [replacementChar]
      | b1 :: rest2 =>
        if isUtf8Cont b1 then
          Char.ofNat ((b0 - 0xC0) * 0x40 + (b1 - 0x80)) :: utf8LossyChars rest2
        else replacementChar :: utf8LossyChars (b1 :: rest2)
    else if 0xE0 ≤ b0 && b0 ≤ 0xEF then
      match rest with
      | [] => [replacementChar]
      | b1 :: rest2 =>
        if validSecondOf3 b0 b1 then
          match rest2 with
          | [] => [replacementChar]
          | b2 :: rest3 =>
            if isUtf8Cont b2 then
              Char.ofNat (((b0 - 0xE0) * 0x40 + (b1 - 0x80)) * 0x40 + (b2 - 0x80)) ::
                utf8LossyChars rest3
            else replacementChar :: utf8LossyChars (b2 :: rest3)
        else replacementChar :: utf8LossyChars (b1 :: rest2)
    else if 0xF0 ≤ b0 && b0 ≤ 0xF4 then
      match rest with
      | [] => [replacementChar]
      | b1 :: rest2 =>
        if validSecondOf4 b0 b1 then
          match rest2 with
          | [] => [replacementChar]
          | b2 :: rest3 =>
            if isUtf8Cont b2 then
              match rest3 with
              | [] => [replacementChar]
              | b3 :: rest4 =>
                if isUtf8Cont b3 then
                  Char.ofNat ((((b0 - 0xF0) * 0x40 + (b1 - 0x80)) * 0x40 + (b2 - 0x80)) * 0x40
                      + (b3 - 0x80)) :: utf8LossyChars rest4
                else replacementChar :: utf8LossyChars (b3 :: rest4)
            else replacementChar :: utf8LossyChars (b2 :: rest3)
        else replacementChar :: utf8LossyChars (b1 :: rest2)
    else replacementChar :: utf8LossyChars rest

/-- Model of String::from_utf8_lossy(s).to_string(). -/
def utf8Lossy (bytes : List Nat) : String := String.mk (utf8LossyChars bytes)

/-- The tabulization code moves f64 payloads around and casts i64 to f64
(`i as f64`) but never computes with or compares floats, so the float
carrier is abstracted: any type with a designated image of the i64-to-f64
cast. -/
class FloatModel (F : Type) where
  ofInt : Int → F

/-- In the witnesses the float carrier is instantiated with Int and the
identity cast. -/
instance : FloatModel Int := ⟨fun i => i⟩

/-- Model of rusqlite::types::ValueRef: the raw storage kind of one cell as
read from the engine. Text carries raw bytes (possibly invalid UTF-8). -/
inductive ValueRef (F : Type)
  | Null
  | Integer (i : Int)
  | Real (f : F)
  | Text (bytes : List Nat)
  | Blob (bytes : List Nat)
deriving DecidableEq, Repr

/-- The ColumnValue enum of src/dataframe.rs lines 11-18. -/
inductive ColumnValue (F : Type)
  | Null
  | Integer (i : Int)
  | Real (f : F)
  | Text (s : String)
  | Blob (b : List Nat)
deriving DecidableEq, Repr

/-- The From impl for ColumnValue, src/dataframe.rs lines 20-30: total over
every storage kind; Text bytes go through String::from_utf8_lossy. -/
def columnValueFrom {F : Type} : ValueRef F → ColumnValue F
  | .Null => .Null
  | .Integer i => .Integer i
  | .Real f => .Real f
  | .Text bytes => .Text (utf8Lossy bytes)
  | .Blob b => .Blob b

/-- Model of a polars Column as produced by build_series: a named typed
sequence with row-aligned nullability. -/
inductive Column (F : Type)
  | floats (name : String) (data : List (Option F))
  | ints (name : String) (data : List (Option Int))
  | strings (name : String) (data : List (Option String))
  | blobs (name : String) (data : List (Option (List Nat)))
deriving DecidableEq, Repr

/-- Number of rows of a column. -/
def Column.length {F : Type} : Column F → Nat
  | .floats _ d => d.length
  | .ints _ d => d.length
  | .strings _ d => d.length
  | .blobs _ d => d.length

/-- Name of a column. -/
def Column.colName {F : Type} : Column F → String
  | .floats n _ => n
  | .ints n _ => n
  | .strings n _ => n
  | .blobs n _ => n

/-- Flag has_integer of build_series (src/dataframe.rs lines 106-119). -/
def has_integer {F : Type} (values : List (ColumnValue F)) : Bool :=
  values.any fun v => match v with | .Integer _ => true | _ => false

/-- Flag has_real of build_series. -/
def has_real {F : Type} (values : List (ColumnValue F)) : Bool :=
  values.any fun v => match v with | .Real _ => true | _ => false

/-- Flag has_text of build_series. -/
def has_text {F : Type} (values : List (ColumnValue F)) : Bool :=
  values.any fun v => match v with | .Text _ => true | _ => false

/-- Flag has_blob of build_series. -/
def has_blob {F : Type} (values : List (ColumnValue F)) : Bool :=
  values.any fun v => match v with | .Blob _ => true | _ => false

/-- Per-cell conversion of the Float64 branch of build_series
(src/dataframe.rs lines 124-132): reals kept, integers promoted with
`i as f64`, everything else dropped to null. -/
def realCellOf {F : Type} [FloatModel F] : ColumnValue F → Option F
  | .Real f => some f
  | .Integer i => some (FloatModel.ofInt i)
  | _ => none

/-- Per-cell conversion of the Int64 branch (lines 136-143). -/
def intCellOf {F : Type} : ColumnValue F → Option Int
  | .Integer i => some i
  | _ => none

/-- Per-cell conversion of the String branch (lines 147-154). -/
def textCellOf {F : Type} : ColumnValue F → Option String
  | .Text s => some s
  | _ => none

/-- Per-cell conversion of the Binary branch (lines 158-165). -/
def blobCellOf {F : Type} : ColumnValue F → Option (List Nat)
  | .Blob b => some b
  | _ => none

/-- build_series, src/dataframe.rs lines 101-172: infer the column type from
the observed cell kinds with priority Real, then Integer, then Text, then
Blob, and fall back to an all-null string column. -/
def build_series {F : Type} [FloatModel F] (name : String) (values : List (ColumnValue F)) :
    Column F :=
  if has_real values then Column.floats name (values.map realCellOf)
  else if has_integer values then Column.ints name (values.map intCellOf)
  else if has_text values then Column.strings name (values.map textCellOf)
  else if has_blob values then Column.blobs name (values.map blobCellOf)
  else Column.strings name (values.map fun _ => none)

/-- Decidable equality for Except results, used to evaluate the witnesses on
concrete inputs. -/
instance {ε α : Type} [DecidableEq ε] [DecidableEq α] : DecidableEq (Except ε α) := fun a b =>
  match a, b with
  | .error e1, .error e2 =>
    if h : e1 = e2 then isTrue (by rw [h]) else isFalse (by simp [h])
  | .ok v1, .ok v2 =>
    if h : v1 = v2 then isTrue (by rw [h]) else isFalse (by simp [h])
  | .error e1, .ok v2 => isFalse (by simp)
  | .ok v1, .error e2 => isFalse (by simp)

/-- Model of a prepared rusqlite statement: the ordered result column names
and the stream of row results that query_map will yield. Each row result is
either a step error (the iterator item is Err) or a row, itself a list of
per-index cell-read results (row.get_ref(i) is Err or a raw value; an index
beyond the row's cells reads as an error, like rusqlite's
InvalidColumnIndex). -/
structure Stmt (F : Type) where
  column_names : List String
  rows : List (Except RusqliteError (List (Except RusqliteError (ValueRef F))))
deriving DecidableEq, Repr

/-- Model of a rusqlite Connection as the tabulizer uses it: statement
preparation from text. -/
structure Connection (F : Type) where
  prepareStmt : String → Except RusqliteError (Stmt F)

/-- The Queryable wrapper of src/lib.rs lines 905-944. -/
structure Queryable (F : Type) where
  conn : Connection F
  normalizing_cte : String

/-- Queryable::prepare, src/lib.rs lines 937-943: format the combined text
as normalizing_cte, a newline, then the user SQL, and hand exactly that to
Connection::prepare, returning its result unchanged. -/
def Queryable.prepare {F : Type} (q : Queryable F) (user_sql : String) :
    Except RusqliteError (Stmt F) :=
  q.conn.prepareStmt (q.normalizing_cte ++ "\n" ++ user_sql)

/-- The row closure of query_to_dataframe (src/dataframe.rs lines 66-77):
for i in 0..column_count, read the cell and keep its type, turning any
cell-read failure into ColumnValue::Null via unwrap_or. -/
def rowValues {F : Type} (column_count : Nat)
    (row : List (Except RusqliteError (ValueRef F))) : List (ColumnValue F) :=
  (List.range column_count).map fun i =>
    match row[i]? with
    | some (Except.ok v) => columnValueFrom v
    | _ => ColumnValue.Null

/-- One iteration of the distribution loop (src/dataframe.rs lines 82-84):
push each of the row's values onto its column buffer. -/
def pushRow {α : Type} (columns : List (List α)) (row_values : List α) : List (List α) :=
  List.zipWith (fun c v => c ++ [v]) columns row_values

/-- The row-collection loop of query_to_dataframe (src/dataframe.rs lines
80-85): fail on the first row-level error (mapped to BearError::SqlError),
otherwise distribute the row into the column buffers. -/
def collectRows {F : Type} (rows : List (Except RusqliteError (List (ColumnValue F))))
    (columns : List (List (ColumnValue F))) :
    Except BearError (List (List (ColumnValue F))) :=
  match rows with
  | [] => .ok columns
  | .error e :: _ => .error (BearError.SqlError e)
  | .ok row_values :: rest => collectRows rest (pushRow columns row_values)

/-- Model of a polars DataFrame: the ordered list of columns. -/
structure DataFrame (F : Type) where
  columns : List (Column F)
deriving DecidableEq, Repr

/-- Do all columns agree on length? -/
def sameLength {F : Type} : List (Column F) → Bool
  | [] => true
  | c :: rest => rest.all fun c2 => c2.length == c.length

/-- Model of polars DataFrame::new per the Table-assembly contract: check
structurally consistent column lengths, else fail. -/
def DataFrame.new {F : Type} (cols : List (Column F)) : Except PolarsErr (DataFrame F) :=
  if sameLength cols then .ok ⟨cols⟩ else .error PolarsErr.ShapeMismatch

/-- query_to_dataframe, src/dataframe.rs lines 47-98: prepare through the
Queryable (errors become BearError::SqlError), record column names, map
each fetched row to its ColumnValue vector, distribute rows into per-column
buffers failing on the first row-level error, then build one series per
column and assemble the DataFrame (assembly errors become
BearError::PolarsError). -/
def query_to_dataframe {F : Type} [FloatModel F] (queryable : Queryable F) (sql : String) :
    Except BearError (DataFrame F) :=
  match queryable.prepare sql with
  | .error e => .error (BearError.SqlError e)
  | .ok stmt =>
    match collectRows (stmt.rows.map fun r => r.map (rowValues stmt.column_names.length))
        (List.replicate stmt.column_names.length []) with
    | .error e => .error e
    | .ok cols =>
      match DataFrame.new ((stmt.column_names.zip cols).map fun p => build_series p.1 p.2) with
      | .error e => .error (BearError.PolarsError e)
      | .ok df => .ok df

/-- The discovered schema metadata, src/schema.rs lines 74-82. -/
structure BearDbMetadata where
  junction_table_name : String
  junction_notes_column : String
  junction_tags_column : String
deriving DecidableEq, Repr

/-- One entry of the sqlite_master catalog together with the column names
PRAGMA table_info reports for it. -/
structure CatalogEntry where
  name : String
  entryType : String
  columns : List String
deriving DecidableEq, Repr

/-- The GLOB pattern of find_junction_table (src/schema.rs line 124):
a name matches when it is the literal Z_, one digit, any characters, and
then ends in TAGS. -/
def junctionGlobMatch (name : String) : Bool :=
  match name.data with
  | 'Z' :: '_' :: d :: rest => d.isDigit && "TAGS".data.isSuffixOf rest
  | _ => false

/-- find_junction_table, src/schema.rs lines 118-132: the LIMIT 1 query over
sqlite_master keeps the first catalog-order table whose name matches the
glob; query_row turns an empty result into QueryReturnedNoRows. -/
def find_junction_table (catalog : List CatalogEntry) : Except RusqliteError String :=
  match (catalog.filter fun e => e.entryType == "table" && junctionGlobMatch e.name).head? with
  | some e => .ok e.name
  | none => .error RusqliteError.QueryReturnedNoRows

/-- Model of PRAGMA table_info: the column names of the named table. -/
def tableInfo (catalog : List CatalogEntry) (table : String) : List String :=
  ((catalog.find? fun e => e.name == table).map fun e => e.columns).getD []

/-- discover_metadata, src/schema.rs lines 85-115: locate the junction
table, list its columns, and pick the first column ending in NOTES and the
first ending in TAGS, failing with QueryReturnedNoRows when either is
missing. -/
def discover_metadata (catalog : List CatalogEntry) : Except RusqliteError BearDbMetadata :=
  match find_junction_table catalog with
  | .error e => .error e
  | .ok junction_table_name =>
    let columns := tableInfo catalog junction_table_name
    match columns.find? fun n => n.endsWith "NOTES" with
    | none => .error RusqliteError.QueryReturnedNoRows
    | some junction_notes_column =>
      match columns.find? fun n => n.endsWith "TAGS" with
      | none => .error RusqliteError.QueryReturnedNoRows
      | some junction_tags_column =>
        .ok ⟨junction_table_name, junction_notes_column, junction_tags_column⟩

/-- Template text of generate_normalizing_cte up to the first substitution
(src/schema.rs lines 137-164); apostrophes are written as \x27. -/
def cteP1 : String :=
  "\nWITH\n  core_data AS (\n    SELECT unixepoch(\x272001-01-01\x27) as epoch\n  ),\n  notes AS (\n    SELECT\n      n.Z_PK as id,\n      n.ZUNIQUEIDENTIFIER as unique_id,\n      n.ZTITLE as title,\n      n.ZTEXT as content,\n      datetime(n.ZMODIFICATIONDATE + cd.epoch, \x27unixepoch\x27) as modified,\n      datetime(n.ZCREATIONDATE + cd.epoch, \x27unixepoch\x27) as created,\n      n.ZPINNED as is_pinned,\n      n.ZTRASHED as is_trashed,\n      n.ZARCHIVED as is_archived\n    FROM ZSFNOTE as n, core_data as cd\n  ),\n  tags AS (\n    SELECT\n      t.Z_PK as id,\n      t.ZTITLE as name,\n      datetime(t.ZMODIFICATIONDATE + cd.epoch, \x27unixepoch\x27) as modified\n    FROM ZSFNOTETAG as t, core_data as cd\n  ),\n  note_tags AS (\n    SELECT\n      nt."

/-- Template text between the notes-column and tags-column substitutions. -/
def cteP2 : String := " as note_id,\n      nt."

/-- Template text between the tags-column and table-name substitutions. -/
def cteP3 : String := " as tag_id\n    FROM "

/-- Template text after the junction-table-name substitution (src/schema.rs
lines 166-174). -/
def cteP4 : String :=
  " as nt\n  ),\n  note_links AS (\n    SELECT\n      nl.ZLINKEDBY as from_note_id,\n      nl.ZLINKINGTO as to_note_id\n    FROM ZSFNOTEBACKLINK as nl\n  )\n"

/-- Opening of the template through the core_data clause. -/
def cteQ1 : String :=
  "\nWITH\n  core_data AS (\n    SELECT unixepoch(\x272001-01-01\x27) as epoch\n  ),\n"

/-- Body of the notes clause. -/
def cteQ2 : String :=
  "\n    SELECT\n      n.Z_PK as id,\n      n.ZUNIQUEIDENTIFIER as unique_id,\n      n.ZTITLE as title,\n      n.ZTEXT as content,\n      datetime(n.ZMODIFICATIONDATE + cd.epoch, \x27unixepoch\x27) as modified,\n      datetime(n.ZCREATIONDATE + cd.epoch, \x27unixepoch\x27) as created,\n      n.ZPINNED as is_pinned,\n      n.ZTRASHED as is_trashed,\n      n.ZARCHIVED as is_archived\n    FROM ZSFNOTE as n, core_data as cd\n  ),\n"

/-- Body of the tags clause. -/
def cteQ3 : String :=
  "\n    SELECT\n      t.Z_PK as id,\n      t.ZTITLE as name,\n      datetime(t.ZMODIFICATIONDATE + cd.epoch, \x27unixepoch\x27) as modified\n    FROM ZSFNOTETAG as t, core_data as cd\n  ),\n"

/-- Start of the note_tags select list. -/
def cteQ4 : String := "\n    SELECT\n      "

/-- Body of the note_links clause. -/
def cteP4tail : String :=
  "\n    SELECT\n      nl.ZLINKEDBY as from_note_id,\n      nl.ZLINKINGTO as to_note_id\n    FROM ZSFNOTEBACKLINK as nl\n  )\n"

set_option maxRecDepth 4096 in

/-- generate_normalizing_cte, src/schema.rs lines 135-177: the fixed
template with the three discovered names substituted, in the order notes
column, tags column, table name. -/
def generate_normalizing_cte (metadata : BearDbMetadata) : String :=
  cteP1 ++ metadata.junction_notes_column ++ cteP2 ++ metadata.junction_tags_column ++
    cteP3 ++ metadata.junction_table_name ++ cteP4

/-- The BearDb handle, src/lib.rs lines 493-497 (the database path is an
external collaborator and is not represented). -/
structure BearDb where
  metadata : BearDbMetadata
  normalizing_cte : String
deriving DecidableEq, Repr

/-- BearDb::new_with_path, src/lib.rs lines 514-532, with the connection
abstracted to the schema catalog it exposes: discover metadata (failures
convert to BearError::SqlError and abort construction), generate the
normalizing CTE once, and build the handle. -/
def new_with_path (catalog : List CatalogEntry) : Except BearError BearDb :=
  match discover_metadata catalog with
  | .error e => .error (BearError.SqlError e)
  | .ok metadata => .ok ⟨metadata, generate_normalizing_cte metadata⟩

/-- Observable kind of a built column. -/
inductive ColKind
  | float
  | int
  | text
  | binary
deriving DecidableEq, Repr

/-- Kind of a column by constructor. -/
def columnKind {F : Type} : Column F → ColKind
  | .floats _ _ => .float
  | .ints _ _ => .int
  | .strings _ _ => .text
  | .blobs _ _ => .binary

/-- Stated from the spec words (section 4.4 step 3): the fixed priority
order float, then integer, then text, then binary, choosing the first kind
present in the column, with the all-absent column falling back to the text
type. Used to compare the code against the spec rule. -/
def specPriorityKind {F : Type} (values : List (ColumnValue F)) : ColKind :=
  if has_real values then .float
  else if has_integer values then .int
  else if has_text values then .text
  else if has_blob values then .binary
  else .text

/- Concrete statements, queryables and catalogs used by the witness and
counterexample theorems. The float carrier is Int (identity cast). -/

def stmtCellErr : Stmt Int :=
  ⟨["c"], [Except.ok [Except.error (RusqliteError.Other "cell read failed")]]⟩

def qCellErr : Queryable Int := ⟨⟨fun _ => Except.ok stmtCellErr⟩, "-- cte"⟩

def stmtRowErr : Stmt Int :=
  ⟨["a"], [Except.ok [Except.ok (ValueRef.Integer 1)],
    Except.error (RusqliteError.Other "step failed")]⟩

def qRowErr : Queryable Int := ⟨⟨fun _ => Except.ok stmtRowErr⟩, "-- cte"⟩

def stmtAllOk : Stmt Int := ⟨["a"], [Except.ok [Except.ok (ValueRef.Integer 1)]]⟩

def qAllOk : Queryable Int := ⟨⟨fun _ => Except.ok stmtAllOk⟩, "-- cte"⟩

def stmtEmpty : Stmt Int := ⟨["a", "b"], []⟩

def qEmpty : Queryable Int := ⟨⟨fun _ => Except.ok stmtEmpty⟩, "-- cte"⟩

def stmtOne : Stmt Int := ⟨["a"], [Except.ok [Except.ok (ValueRef.Integer 5)]]⟩

def qOne : Queryable Int := ⟨⟨fun _ => Except.ok stmtOne⟩, "-- cte"⟩

def stmtBadUtf8 : Stmt Int := ⟨["t"], [Except.ok [Except.ok (ValueRef.Text [0xFF, 0x68])]]⟩

def qBadUtf8 : Queryable Int := ⟨⟨fun _ => Except.ok stmtBadUtf8⟩, "-- cte"⟩

def qPrepFail : Queryable Int :=
  ⟨⟨fun _ => Except.error RusqliteError.QueryReturnedNoRows⟩, "-- cte"⟩

def catNone : List CatalogEntry :=
  [⟨"ZSFNOTE", "table", ["Z_PK"]⟩, ⟨"ZSFNOTETAG", "table", ["Z_PK"]⟩]

def catTwo : List CatalogEntry :=
  [⟨"ZSFNOTE", "table", ["Z_PK"]⟩, ⟨"Z_5TAGS", "table", ["Z_5NOTES", "Z_13TAGS"]⟩,
    ⟨"Z_7TAGS", "table", ["Z_7NOTES", "Z_15TAGS"]⟩]

/-- Appending strings appends their character data. -/
lemma string_data_append (s t : String) : (s ++ t).data = s.data ++ t.data := by
  cases s; cases t; rfl

/-- The row closure always yields exactly one cell per column position. -/
lemma rowValues_length {F : Type} (n : Nat)
    (row : List (Except RusqliteError (ValueRef F))) :
    (rowValues n row).length = n := by
  simp [rowValues]

/-- build_series never drops or adds rows: the built column has exactly one
slot per input cell, whatever the inferred type. -/
lemma build_series_length {F : Type} [FloatModel F] (name : String)
    (values : List (ColumnValue F)) :
    (build_series name values).length = values.length := by
  unfold build_series
  split
  · simp [Column.length]
  · split
    · simp [Column.length]
    · split
      · simp [Column.length]
      · split
        · simp [Column.length]
        · simp [Column.length]

/-- build_series on the empty buffer is the all-absent string column. -/
lemma build_series_nil {F : Type} [FloatModel F] (name : String) :
    build_series name ([] : List (ColumnValue F)) = Column.strings name [] := rfl

/-- The built column kind is exactly the spec priority rule. -/
lemma columnKind_build_series {F : Type} [FloatModel F] (name : String)
    (values : List (ColumnValue F)) :
    columnKind (build_series name values) = specPriorityKind values := by
  unfold build_series specPriorityKind
  cases hr : has_real values <;> cases hi : has_integer values <;>
    cases ht : has_text values <;> cases hb : has_blob values <;> simp [columnKind]

/-- Columns of equal constant length pass the DataFrame length check. -/
lemma sameLength_of_const {F : Type} (cols : List (Column F)) (L : Nat)
    (h : ∀ c ∈ cols, c.length = L) : sameLength cols = true := by
  cases cols with
  | nil => rfl
  | cons c rest =>
    simp only [sameLength, List.all_eq_true]
    intro c2 hc2
    rw [h c2 (by simp [hc2]), h c (by simp)]
    exact beq_self_eq_true L

/-- A list of results that are all ok is a mapped list of values. -/
lemma exists_ok_list {ε α : Type} :
    ∀ (rows : List (Except ε α)), (∀ r ∈ rows, ∃ v, r = Except.ok v) →
      ∃ vs : List α, rows = vs.map Except.ok
  | [], _ => ⟨[], rfl⟩
  | r :: rest, h => by
    obtain ⟨v, hv⟩ := h r (by simp)
    obtain ⟨vs, hvs⟩ := exists_ok_list rest fun r2 hr2 => h r2 (by simp [hr2])
    exact ⟨v :: vs, by simp [hv, hvs]⟩

/-- Distributing error-free rows never fails and folds the pushes. -/
lemma collectRows_all_ok {F : Type} :
    ∀ (vss : List (List (ColumnValue F))) (columns : List (List (ColumnValue F))),
      collectRows (vss.map Except.ok) columns = Except.ok (vss.foldl pushRow columns)
  | [], columns => rfl
  | v :: vs, columns => by
    simp only [List.map_cons, List.foldl_cons]
    exact collectRows_all_ok vs (pushRow columns v)

/-- The distribution loop stops at the first row-level error, discarding
everything accumulated so far and surfacing the error as SqlError. -/
lemma collectRows_first_error {F : Type} :
    ∀ (pre : List (List (ColumnValue F))) (e : RusqliteError)
      (post : List (Except RusqliteError (List (ColumnValue F))))
      (columns : List (List (ColumnValue F))),
      collectRows (pre.map Except.ok ++ Except.error e :: post) columns =
        Except.error (BearError.SqlError e)
  | [], e, post, columns => rfl
  | v :: vs, e, post, columns => collectRows_first_error vs e post (pushRow columns v)

/-- A successful distribution means every row result was ok. -/
lemma collectRows_ok_rows {F : Type} :
    ∀ (rows : List (Except RusqliteError (List (ColumnValue F))))
      (columns result : List (List (ColumnValue F))),
      collectRows rows columns = Except.ok result → ∀ r ∈ rows, ∃ v, r = Except.ok v
  | [], _, _, _ => by simp
  | .error e :: rest, columns, result, h => by simp [collectRows] at h
  | .ok v :: rest, columns, result, h => by
    intro r hr
    rcases List.mem_cons.mp hr with h1 | h2
    · exact ⟨v, h1⟩
    · exact collectRows_ok_rows rest (pushRow columns v) result h r h2

/-- Any error out of the distribution loop is an SqlError. -/
lemma collectRows_error_shape {F : Type} :
    ∀ (rows : List (Except RusqliteError (List (ColumnValue F))))
      (columns : List (List (ColumnValue F))) (err : BearError),
      collectRows rows columns = Except.error err → ∃ e, err = BearError.SqlError e
  | [], _, _, h => by simp [collectRows] at h
  | .error e :: rest, columns, err, h => by
    simp only [collectRows, Except.error.injEq] at h
    exact ⟨e, h.symm⟩
  | .ok v :: rest, columns, err, h =>
    collectRows_error_shape rest (pushRow columns v) err h

/-- Pushing one row of matching width onto buffers of constant length L
yields buffers of constant length L + 1. -/
lemma mem_pushRow {α : Type} :
    ∀ (columns : List (List α)) (row : List α) (L : Nat),
      columns.length = row.length →
      (∀ c ∈ columns, c.length = L) →
      ∀ c ∈ pushRow columns row, c.length = L + 1
  | [], _, _, _, _ => by simp [pushRow]
  | a :: as, [], L, hlen, h => by simp at hlen
  | a :: as, v :: vs, L, hlen, h => by
    intro c hc
    simp only [pushRow, List.zipWith_cons_cons] at hc
    rcases List.mem_cons.mp hc with h1 | h2
    · subst h1; simp [h a (by simp)]
    · exact mem_pushRow as vs L (by simpa using hlen) (fun c2 hc2 => h c2 (by simp [hc2])) c h2

/-- Sizes after a successful distribution: the number of buffers is
unchanged and every buffer grew by exactly one cell per row. -/
lemma collectRows_ok_spec {F : Type} :
    ∀ (rows : List (Except RusqliteError (List (ColumnValue F))))
      (columns result : List (List (ColumnValue F))) (L : Nat),
      collectRows rows columns = Except.ok result →
      (∀ c ∈ columns, c.length = L) →
      (∀ v, Except.ok v ∈ rows → v.length = columns.length) →
      result.length = columns.length ∧ ∀ c ∈ result, c.length = L + rows.length
  | [], columns, result, L, hok, hL, hv => by
    simp only [collectRows, Except.ok.injEq] at hok
    subst hok
    exact ⟨rfl, by simpa using hL⟩
  | .error e :: rest, columns, result, L, hok, hL, hv => by
    simp [collectRows] at hok
  | .ok v :: rest, columns, result, L, hok, hL, hv => by
    have hvn : v.length = columns.length := hv v (by simp)
    have hpn : (pushRow columns v).length = columns.length := by
      simp [pushRow, List.length_zipWith, hvn]
    have hrec := collectRows_ok_spec rest (pushRow columns v) result (L + 1) hok
      (mem_pushRow columns v L hvn.symm hL)
      (fun w hw => by rw [hpn]; exact hv w (by simp [hw]))
    refine ⟨by rw [hrec.1, hpn], fun c hc => ?_⟩
    have hc2 := hrec.2 c hc
    rw [hc2, List.length_cons]
    omega

/-- Zipping a list with matching-length replicated nils pairs each element
with the empty list. -/
lemma zip_replicate_nil {α β : Type} :
    ∀ (names : List α),
      names.zip (List.replicate names.length ([] : List β)) =
        names.map fun nm => (nm, ([] : List β))
  | [] => rfl
  | a :: as => by
    simp only [List.length_cons, List.replicate_succ, List.zip_cons_cons, List.map_cons]
    rw [zip_replicate_nil as]

/-- An all-Null buffer has no observed kind at all. -/
lemma flags_false_of_null {F : Type} (values : List (ColumnValue F))
    (h : ∀ v ∈ values, v = ColumnValue.Null) :
    has_real values = false ∧ has_integer values = false ∧
      has_text values = false ∧ has_blob values = false := by
  refine ⟨?_, ?_, ?_, ?_⟩ <;>
    · simp only [has_real, has_integer, has_text, has_blob]
      rw [List.any_eq_false]
      intro v hv
      rw [h v hv]
      simp

/-- Unfolding of query_to_dataframe once preparation succeeded. -/
lemma query_to_dataframe_ok_prepare {F : Type} [FloatModel F] (q : Queryable F) (sql : String)
    (stmt : Stmt F) (hp : q.prepare sql = Except.ok stmt) :
    query_to_dataframe q sql =
      match collectRows (stmt.rows.map fun r => r.map (rowValues stmt.column_names.length))
          (List.replicate stmt.column_names.length []) with
      | .error e => .error e
      | .ok cols =>
        match DataFrame.new ((stmt.column_names.zip cols).map fun p => build_series p.1 p.2) with
        | .error e => .error (BearError.PolarsError e)
        | .ok df => .ok df := by
  unfold query_to_dataframe
  rw [hp]

/-- If preparation succeeded and every row fetch succeeded, tabulization
succeeds, whatever the individual cell reads did. -/
lemma query_ok_of_rows_ok {F : Type} [FloatModel F] (q : Queryable F) (sql : String)
    (stmt : Stmt F)
    (hp : q.prepare sql = Except.ok stmt)
    (hrows : ∀ r ∈ stmt.rows, ∃ v, r = Except.ok v) :
    ∃ df, query_to_dataframe q sql = Except.ok df := by
  obtain ⟨vs, hvs⟩ := exists_ok_list stmt.rows hrows
  have hmap : (stmt.rows.map fun r => r.map (rowValues stmt.column_names.length)) =
      (vs.map (rowValues stmt.column_names.length)).map Except.ok := by
    rw [hvs]
    simp [List.map_map, Function.comp_def, Except.map]
  have hcoll := collectRows_all_ok (vs.map (rowValues stmt.column_names.length))
    (List.replicate stmt.column_names.length [])
  have hspec := collectRows_ok_spec
    ((vs.map (rowValues stmt.column_names.length)).map Except.ok)
    (List.replicate stmt.column_names.length [])
    ((vs.map (rowValues stmt.column_names.length)).foldl pushRow
      (List.replicate stmt.column_names.length [])) 0 hcoll
    (by intro c hc; simp [List.eq_of_mem_replicate hc])
    (by
      intro v hv
      rw [List.length_replicate]
      obtain ⟨w, hw, hwv⟩ := List.mem_map.mp hv
      obtain ⟨raw, hraw, hrw⟩ := List.mem_map.mp hw
      injection hwv with hwv2
      subst hwv2
      rw [← hrw]
      exact rowValues_length _ _)
  have hserlen : ∀ c ∈ (stmt.column_names.zip
      ((vs.map (rowValues stmt.column_names.length)).foldl pushRow
        (List.replicate stmt.column_names.length []))).map fun p => build_series p.1 p.2,
      c.length = vs.length := by
    intro c hc
    obtain ⟨p, hp2, hpc⟩ := List.mem_map.mp hc
    rw [← hpc, build_series_length]
    have hmem := (List.of_mem_zip hp2).2
    have hl := hspec.2 p.2 hmem
    simpa using hl
  have hsl := sameLength_of_const _ vs.length hserlen
  refine ⟨⟨(stmt.column_names.zip
      ((vs.map (rowValues stmt.column_names.length)).foldl pushRow
        (List.replicate stmt.column_names.length []))).map fun p => build_series p.1 p.2⟩, ?_⟩
  rw [query_to_dataframe_ok_prepare q sql stmt hp, hmap, hcoll]
  simp only [DataFrame.new, hsl, if_true]

/-- Shape of every successfully returned table: one column per result
column name and every column exactly as long as the row stream. -/
lemma query_ok_shape {F : Type} [FloatModel F] (q : Queryable F) (sql : String)
    (stmt : Stmt F) (df : DataFrame F)
    (hp : q.prepare sql = Except.ok stmt)
    (h2 : query_to_dataframe q sql = Except.ok df) :
    df.columns.length = stmt.column_names.length ∧
      ∀ c ∈ df.columns, c.length = stmt.rows.length := by
  rw [query_to_dataframe_ok_prepare q sql stmt hp] at h2
  cases hc : collectRows (stmt.rows.map fun r => r.map (rowValues stmt.column_names.length))
      (List.replicate stmt.column_names.length []) with
  | error e => rw [hc] at h2; simp at h2
  | ok cols =>
    rw [hc] at h2
    have h2b : (match DataFrame.new ((stmt.column_names.zip cols).map fun p =>
        build_series p.1 p.2) with
      | Except.error e => Except.error (BearError.PolarsError e)
      | Except.ok df2 => Except.ok df2) = Except.ok df := h2
    have hspec := collectRows_ok_spec _ _ _ 0 hc
      (by intro c hcm; simp [List.eq_of_mem_replicate hcm])
      (by
        intro v hv
        rw [List.length_replicate]
        obtain ⟨r, hr, hrv⟩ := List.mem_map.mp hv
        cases r with
        | error e => simp [Except.map] at hrv
        | ok raw =>
          simp only [Except.map, Except.ok.injEq] at hrv
          rw [← hrv]
          exact rowValues_length _ _)
    cases hn : DataFrame.new ((stmt.column_names.zip cols).map fun p => build_series p.1 p.2) with
    | error e => rw [hn] at h2b; simp at h2b
    | ok df2 =>
      rw [hn] at h2b
      simp only [Except.ok.injEq] at h2b
      subst h2b
      have hdf2 : df2.columns = (stmt.column_names.zip cols).map fun p => build_series p.1 p.2 := by
        unfold DataFrame.new at hn
        split at hn
        · simp only [Except.ok.injEq] at hn
          rw [← hn]
        · simp at hn
      constructor
      · rw [hdf2]
        simp only [List.length_map, List.length_zip]
        rw [hspec.1, List.length_replicate]
        simp
      · intro c hcmem
        rw [hdf2] at hcmem
        obtain ⟨p, hp2, hpc⟩ := List.mem_map.mp hcmem
        rw [← hpc, build_series_length]
        have hl := hspec.2 p.2 (List.of_mem_zip hp2).2
        simpa using hl

set_option maxRecDepth 4096 in
/-- Decomposition of the first template piece at the clause names. -/
lemma cteP1_split :
    cteP1 = cteQ1 ++ "  notes AS (" ++ cteQ2 ++ "  tags AS (" ++ cteQ3 ++
      "  note_tags AS (" ++ cteQ4 ++ "nt." := by rfl

/-- Decomposition of the second template piece. -/
lemma cteP2_split : cteP2 = " as note_id" ++ ",\n      " ++ "nt." := by rfl

/-- Decomposition of the third template piece. -/
lemma cteP3_split : cteP3 = " as tag_id" ++ "\n    " ++ "FROM " := by rfl

/-- Decomposition of the fourth template piece. -/
lemma cteP4_split : cteP4 = " as nt" ++ "\n  ),\n" ++ "  note_links AS (" ++ cteP4tail := by rfl

set_option maxRecDepth 4096 in
/-- C8: generate_normalizing_cte is a total Lean function of the metadata
and equal field values give byte-identical text (purity, determinism,
totality); the text contains the notes, tags, note_tags and note_links
clause headers (the spec entities, labels, entity_labels, entity_links
surface) and the junction clause is built from the three discovered names:
the notes column, the tags column and the junction table name appear in
their template positions. -/
theorem c8_view_generation (m m2 : BearDbMetadata)
    (h1 : m.junction_table_name = m2.junction_table_name)
    (h2 : m.junction_notes_column = m2.junction_notes_column)
    (h3 : m.junction_tags_column = m2.junction_tags_column) :
    generate_normalizing_cte m = generate_normalizing_cte m2
    ∧ (∃ s t, s ++ ("  notes AS (" : String).data ++ t = (generate_normalizing_cte m).data)
    ∧ (∃ s t, s ++ ("  tags AS (" : String).data ++ t = (generate_normalizing_cte m).data)
    ∧ (∃ s t, s ++ ("  note_tags AS (" : String).data ++ t = (generate_normalizing_cte m).data)
    ∧ (∃ s t, s ++ ("  note_links AS (" : String).data ++ t = (generate_normalizing_cte m).data)
    ∧ (∃ s t, s ++ ("nt." ++ m.junction_notes_column ++ " as note_id").data ++ t =
        (generate_normalizing_cte m).data)
    ∧ (∃ s t, s ++ ("nt." ++ m.junction_tags_column ++ " as tag_id").data ++ t =
        (generate_normalizing_cte m).data)
    ∧ (∃ s t, s ++ ("FROM " ++ m.junction_table_name ++ " as nt").data ++ t =
        (generate_normalizing_cte m).data) := by
  refine ⟨?_, ?_, ?_, ?_, ?_, ?_, ?_, ?_⟩
  · rw [generate_normalizing_cte, generate_normalizing_cte, h1, h2, h3]
  · refine ⟨cteQ1.data, (cteQ2 ++ "  tags AS (" ++ cteQ3 ++ "  note_tags AS (" ++ cteQ4 ++
      "nt." ++ m.junction_notes_column ++ cteP2 ++ m.junction_tags_column ++ cteP3 ++
      m.junction_table_name ++ cteP4).data, ?_⟩
    simp only [generate_normalizing_cte, cteP1_split, cteP2_split, cteP3_split, cteP4_split,
      string_data_append, List.append_assoc]
  · refine ⟨(cteQ1 ++ "  notes AS (" ++ cteQ2).data, (cteQ3 ++ "  note_tags AS (" ++ cteQ4 ++
      "nt." ++ m.junction_notes_column ++ cteP2 ++ m.junction_tags_column ++ cteP3 ++
      m.junction_table_name ++ cteP4).data, ?_⟩
    simp only [generate_normalizing_cte, cteP1_split, cteP2_split, cteP3_split, cteP4_split,
      string_data_append, List.append_assoc]
  · refine ⟨(cteQ1 ++ "  notes AS (" ++ cteQ2 ++ "  tags AS (" ++ cteQ3).data, (cteQ4 ++
      "nt." ++ m.junction_notes_column ++ cteP2 ++ m.junction_tags_column ++ cteP3 ++
      m.junction_table_name ++ cteP4).data, ?_⟩
    simp only [generate_normalizing_cte, cteP1_split, cteP2_split, cteP3_split, cteP4_split,
      string_data_append, List.append_assoc]
  · refine ⟨(cteP1 ++ m.junction_notes_column ++ cteP2 ++ m.junction_tags_column ++ cteP3 ++
      m.junction_table_name ++ " as nt" ++ "\n  ),\n").data, cteP4tail.data, ?_⟩
    simp only [generate_normalizing_cte, cteP1_split, cteP2_split, cteP3_split, cteP4_split,
      string_data_append, List.append_assoc]
  · refine ⟨(cteQ1 ++ "  notes AS (" ++ cteQ2 ++ "  tags AS (" ++ cteQ3 ++ "  note_tags AS (" ++
      cteQ4).data, (",\n      " ++ "nt." ++ m.junction_tags_column ++ cteP3 ++
      m.junction_table_name ++ cteP4).data, ?_⟩
    simp only [generate_normalizing_cte, cteP1_split, cteP2_split, cteP3_split, cteP4_split,
      string_data_append, List.append_assoc]
  · refine ⟨(cteP1 ++ m.junction_notes_column ++ " as note_id" ++ ",\n      ").data,
      ("\n    " ++ "FROM " ++ m.junction_table_name ++ cteP4).data, ?_⟩
    simp only [generate_normalizing_cte, cteP1_split, cteP2_split, cteP3_split, cteP4_split,
      string_data_append, List.append_assoc]
  · refine ⟨(cteP1 ++ m.junction_notes_column ++ cteP2 ++ m.junction_tags_column ++
      " as tag_id" ++ "\n    ").data, ("\n  ),\n" ++ "  note_links AS (" ++ cteP4tail).data, ?_⟩
    simp only [generate_normalizing_cte, cteP1_split, cteP2_split, cteP3_split, cteP4_split,
      string_data_append, List.append_assoc]


/-- Witness for C8 at the discovered names of the test schema. -/
theorem c8_witness :
    generate_normalizing_cte ⟨"Z_5TAGS", "Z_5NOTES", "Z_13TAGS"⟩ =
      generate_normalizing_cte ⟨"Z_5TAGS", "Z_5NOTES", "Z_13TAGS"⟩ :=
  (c8_view_generation ⟨"Z_5TAGS", "Z_5NOTES", "Z_13TAGS"⟩
    ⟨"Z_5TAGS", "Z_5NOTES", "Z_13TAGS"⟩ rfl rfl rfl).1

lemma except_map_ok {e a b : Type} (f : a → b) (x : a) :
    (Except.ok x : Except e a).map f = Except.ok (f x) := rfl

lemma except_map_error {e a b : Type} (f : a → b) (err : e) :
    (Except.error err : Except e a).map f = (Except.error err : Except e b) := rfl

/-- Mapping the row closure over a stream that is ok up to its first error
splits into mapped ok rows, the error, and the mapped tail. -/
lemma mapped_rows_split {F : Type} (n : Nat)
    (okRows : List (List (Except RusqliteError (ValueRef F)))) (e : RusqliteError)
    (post : List (Except RusqliteError (List (Except RusqliteError (ValueRef F))))) :
    (((okRows.map Except.ok ++ Except.error e :: post) :
        List (Except RusqliteError (List (Except RusqliteError (ValueRef F))))).map fun r =>
        r.map (rowValues n)) =
      (okRows.map (rowValues n)).map Except.ok ++
        Except.error e :: (post.map fun r => r.map (rowValues n)) := by
  simp [List.map_append, List.map_map, Function.comp_def, except_map_ok, except_map_error]

/-- C1 counterexample: a statement whose single row is fetched successfully
but whose only cell read fails does not make query_to_dataframe return an
error. The failed cell read is replaced by Null (src/dataframe.rs line 73,
unwrap_or) and a whole Table is produced, refuting the claim that any
individual cell-read failure aborts the operation. -/
theorem c1_counterexample :
    stmtCellErr.rows = [Except.ok [Except.error (RusqliteError.Other "cell read failed")]]
    ∧ query_to_dataframe qCellErr "SELECT c FROM notes" =
        Except.ok ⟨[Column.strings "c" [none]]⟩ := by
  exact ⟨rfl, by decide⟩

/-- C1 (amended): if fetching a row fails (a row-level error from the
statement iterator), query_to_dataframe returns that error as
BearError.SqlError and no Table is produced — the build short-circuits at
the first row error and partially read rows are discarded; but a failure
reading an individual cell inside a successfully fetched row never fails
the operation: when every row fetch succeeds, a Table is returned whatever
the individual cell reads did. -/
theorem c1_row_error_propagation {F : Type} [FloatModel F] (q : Queryable F) (sql : String)
    (stmt : Stmt F) (okRows : List (List (Except RusqliteError (ValueRef F))))
    (e : RusqliteError)
    (post : List (Except RusqliteError (List (Except RusqliteError (ValueRef F)))))
    (hp : q.prepare sql = Except.ok stmt) :
    (stmt.rows = okRows.map Except.ok ++ Except.error e :: post →
      query_to_dataframe q sql = Except.error (BearError.SqlError e))
    ∧ ((∀ r ∈ stmt.rows, ∃ v, r = Except.ok v) →
      ∃ df, query_to_dataframe q sql = Except.ok df) := by
  constructor
  · intro hr
    rw [query_to_dataframe_ok_prepare q sql stmt hp, hr,
      mapped_rows_split stmt.column_names.length okRows e post, collectRows_first_error]
  · intro hall
    exact query_ok_of_rows_ok q sql stmt hp hall

/-- Witness for C1: a concrete row-level error aborts the build with that
error, and a concrete statement whose rows all fetch produces a Table. -/
theorem c1_witness :
    query_to_dataframe qRowErr "SELECT a" =
      Except.error (BearError.SqlError (RusqliteError.Other "step failed"))
    ∧ ∃ df, query_to_dataframe qAllOk "SELECT a" = Except.ok df :=
  ⟨(c1_row_error_propagation qRowErr "SELECT a" stmtRowErr
      [[Except.ok (ValueRef.Integer 1)]] (RusqliteError.Other "step failed") [] rfl).1 rfl,
   (c1_row_error_propagation qAllOk "SELECT a" stmtAllOk [] RusqliteError.QueryReturnedNoRows
      [] rfl).2 (by intro r hr; simp [stmtAllOk] at hr; exact ⟨_, hr⟩)⟩

/-- C2: when a column buffer contains at least one floating-point cell,
build_series produces a floating-point column in which every integer cell
is widened by the i64-to-f64 cast, every absent cell stays absent, and no
rows are dropped; in general the built column kind follows the fixed
priority order float, integer, text, binary — first kind present wins,
with the all-absent text fallback. -/
theorem c2_float_unification {F : Type} [FloatModel F] (name : String)
    (values : List (ColumnValue F)) (h : has_real values = true) :
    build_series name values = Column.floats name (values.map realCellOf)
    ∧ (build_series name values).length = values.length
    ∧ ∀ (name2 : String) (values2 : List (ColumnValue F)),
        columnKind (build_series name2 values2) = specPriorityKind values2 := by
  refine ⟨?_, build_series_length name values, fun n2 v2 => columnKind_build_series n2 v2⟩
  unfold build_series
  rw [if_pos h]

/-- Witness for C2 on a mixed integer/float/null/text buffer. -/
theorem c2_witness :
    build_series (F := Int) "m" [ColumnValue.Integer 3, ColumnValue.Real 7, ColumnValue.Null,
      ColumnValue.Text "x"] = Column.floats "m" [some 3, some 7, none, none] :=
  ((c2_float_unification "m" _ (by decide)).1).trans (by decide)

/-- C3: a column buffer containing integer cells and text cells but no
float cells becomes an integer column whose text-bearing rows are absent
(intCellOf maps Text to none) rather than an error — build_series is total
and mixed-type columns cannot fail. -/
theorem c3_int_text_unification {F : Type} [FloatModel F] (name : String)
    (values : List (ColumnValue F)) (h1 : has_real values = false)
    (h2 : has_integer values = true) (h3 : has_text values = true) :
    build_series name values = Column.ints name (values.map intCellOf)
    ∧ (build_series name values).length = values.length
    ∧ ∀ s, intCellOf (F := F) (ColumnValue.Text s) = none := by
  refine ⟨?_, build_series_length name values, fun s => rfl⟩
  simp [build_series, h1, h2]

/-- Witness for C3 on a mixed integer/text/null buffer. -/
theorem c3_witness :
    build_series (F := Int) "m" [ColumnValue.Integer 3, ColumnValue.Text "x", ColumnValue.Null] =
      Column.ints "m" [some 3, none, none] :=
  ((c3_int_text_unification "m" _ (by decide) (by decide) (by decide)).1).trans (by decide)

/-- C4: a zero-row result produces a Table with the correct column names
in original order, zero rows, and each column materialized as the
deterministic all-absent text fallback; and build_series on an all-absent
buffer is the all-absent text column. -/
theorem c4_zero_rows {F : Type} [FloatModel F] (q : Queryable F) (sql : String) (stmt : Stmt F)
    (name : String) (values : List (ColumnValue F))
    (h1 : q.prepare sql = Except.ok stmt) (h2 : stmt.rows = [])
    (h3 : ∀ v ∈ values, v = ColumnValue.Null) :
    query_to_dataframe q sql =
      Except.ok ⟨stmt.column_names.map fun nm => Column.strings nm []⟩
    ∧ build_series name values = Column.strings name (values.map fun _ => none) := by
  constructor
  · rw [query_to_dataframe_ok_prepare q sql stmt h1, h2]
    simp only [List.map_nil]
    show (match DataFrame.new ((stmt.column_names.zip
        (List.replicate stmt.column_names.length ([] : List (ColumnValue F)))).map fun p =>
        build_series p.1 p.2) with
      | Except.error e => Except.error (BearError.PolarsError e)
      | Except.ok df => Except.ok df) =
      Except.ok ⟨stmt.column_names.map fun nm => Column.strings nm []⟩
    rw [zip_replicate_nil stmt.column_names, List.map_map]
    have hfun : ((fun p => build_series p.1 p.2) ∘ fun nm => (nm, ([] : List (ColumnValue F)))) =
        fun nm => Column.strings (F := F) nm [] := by
      funext nm
      exact build_series_nil nm
    rw [hfun]
    have hsl : sameLength (stmt.column_names.map fun nm => Column.strings (F := F) nm []) =
        true := by
      apply sameLength_of_const _ 0
      intro c hc
      obtain ⟨nm, hnm, hcnm⟩ := List.mem_map.mp hc
      rw [← hcnm]
      rfl
    simp only [DataFrame.new, hsl, if_true]
  · obtain ⟨hr, hi, ht, hb⟩ := flags_false_of_null values h3
    simp [build_series, hr, hi, ht, hb]

/-- Witness for C4 on a two-column zero-row statement and an all-Null
buffer. -/
theorem c4_witness :
    query_to_dataframe qEmpty "SELECT a, b FROM notes WHERE 0 = 1" =
      Except.ok ⟨[Column.strings "a" [], Column.strings "b" []]⟩
    ∧ build_series (F := Int) "t" [ColumnValue.Null, ColumnValue.Null] =
      Column.strings "t" [none, none] := by
  have h := c4_zero_rows qEmpty "SELECT a, b FROM notes WHERE 0 = 1" stmtEmpty "t"
    [ColumnValue.Null, ColumnValue.Null] rfl rfl (by decide)
  exact ⟨h.1.trans (by decide), h.2.trans (by decide)⟩

/-- C5: when zero catalog tables match the versioned junction glob,
discover_metadata fails with QueryReturnedNoRows and new_with_path returns
an error, so the adapter is never constructed; when one or more candidates
exist, find_junction_table deterministically selects the first match in
catalog order instead of failing on multiplicity. -/
theorem c5_junction_discovery (catalog : List CatalogEntry) :
    ((catalog.filter fun e => e.entryType == "table" && junctionGlobMatch e.name) = [] →
      discover_metadata catalog = Except.error RusqliteError.QueryReturnedNoRows ∧
        new_with_path catalog =
          Except.error (BearError.SqlError RusqliteError.QueryReturnedNoRows))
    ∧ ∀ t ts,
        (catalog.filter fun e => e.entryType == "table" && junctionGlobMatch e.name) = t :: ts →
        find_junction_table catalog = Except.ok t.name := by
  constructor
  · intro h
    have hf : find_junction_table catalog = Except.error RusqliteError.QueryReturnedNoRows := by
      unfold find_junction_table
      rw [h]
      rfl
    constructor
    · unfold discover_metadata
      rw [hf]
    · unfold new_with_path discover_metadata
      rw [hf]
  · intro t ts h
    unfold find_junction_table
    rw [h]
    rfl

/-- Witness for C5 on a catalog with no junction table and one with two. -/
theorem c5_witness :
    new_with_path catNone = Except.error (BearError.SqlError RusqliteError.QueryReturnedNoRows)
    ∧ find_junction_table catTwo = Except.ok "Z_5TAGS" :=
  ⟨((c5_junction_discovery catNone).1 (by decide)).2,
   (c5_junction_discovery catTwo).2 ⟨"Z_5TAGS", "table", ["Z_5NOTES", "Z_13TAGS"]⟩
     [⟨"Z_7TAGS", "table", ["Z_7NOTES", "Z_15TAGS"]⟩] (by decide)⟩

/-- C6 counterexample: a schema-discovery failure (empty catalog) and a
query-preparation failure surface as the identical BearError value,
SqlError QueryReturnedNoRows — the raw underlying-engine error wrapped in
one shared variant — so calling code cannot branch on a SchemaDiscoveryError
kind versus a QueryError kind as the claim states. -/
theorem c6_counterexample :
    new_with_path ([] : List CatalogEntry) =
      Except.error (BearError.SqlError RusqliteError.QueryReturnedNoRows)
    ∧ query_to_dataframe qPrepFail "SELECT 1" =
      Except.error (BearError.SqlError RusqliteError.QueryReturnedNoRows) :=
  ⟨by decide, by decide⟩

/-- C6 (amended): every error surfaced by adapter construction is the
structured BearError variant SqlError wrapping the raw engine error, and
every error surfaced by query_to_dataframe is SqlError or PolarsError; the
kinds calling code can branch on are NoHomeDirectory, SqlError and
PolarsError — not the spec three kinds SchemaDiscoveryError, QueryError
and TabulizeError. -/
theorem c6_error_structure {F : Type} [FloatModel F] (catalog : List CatalogEntry)
    (q : Queryable F) (sql : String) (err1 err2 : BearError)
    (h1 : new_with_path catalog = Except.error err1)
    (h2 : query_to_dataframe q sql = Except.error err2) :
    (∃ e, err1 = BearError.SqlError e) ∧
      ((∃ e, err2 = BearError.SqlError e) ∨ ∃ p, err2 = BearError.PolarsError p) := by
  constructor
  · unfold new_with_path at h1
    cases hd : discover_metadata catalog with
    | error e =>
      rw [hd] at h1
      have h1b : (Except.error (BearError.SqlError e) : Except BearError BearDb) =
          Except.error err1 := h1
      simp only [Except.error.injEq] at h1b
      exact ⟨e, h1b.symm⟩
    | ok md =>
      rw [hd] at h1
      exact absurd h1 (by simp)
  · cases hp : q.prepare sql with
    | error e =>
      have hq : query_to_dataframe q sql = Except.error (BearError.SqlError e) := by
        unfold query_to_dataframe
        rw [hp]
      rw [hq] at h2
      simp only [Except.error.injEq] at h2
      exact Or.inl ⟨e, h2.symm⟩
    | ok stmt =>
      rw [query_to_dataframe_ok_prepare q sql stmt hp] at h2
      cases hc : collectRows (stmt.rows.map fun r => r.map (rowValues stmt.column_names.length))
          (List.replicate stmt.column_names.length []) with
      | error eb =>
        rw [hc] at h2
        have h2b : (Except.error eb : Except BearError (DataFrame F)) = Except.error err2 := h2
        simp only [Except.error.injEq] at h2b
        obtain ⟨e2, he2⟩ := collectRows_error_shape _ _ eb hc
        exact Or.inl ⟨e2, by rw [← h2b, he2]⟩
      | ok cols =>
        rw [hc] at h2
        have h2b : (match DataFrame.new ((stmt.column_names.zip cols).map fun p =>
            build_series p.1 p.2) with
          | Except.error e => Except.error (BearError.PolarsError e)
          | Except.ok df2 => Except.ok df2) = Except.error err2 := h2
        cases hn : DataFrame.new ((stmt.column_names.zip cols).map fun p =>
            build_series p.1 p.2) with
        | error p =>
          rw [hn] at h2b
          have h2c : (Except.error (BearError.PolarsError p) : Except BearError (DataFrame F)) =
              Except.error err2 := h2b
          simp only [Except.error.injEq] at h2c
          exact Or.inr ⟨p, h2c.symm⟩
        | ok df2 =>
          rw [hn] at h2b
          exact absurd h2b (by simp)

/-- Witness for C6 amended at the empty catalog and a failing prepare. -/
theorem c6_witness :
    (∃ e, (BearError.SqlError RusqliteError.QueryReturnedNoRows : BearError) =
      BearError.SqlError e) ∧
      ((∃ e, (BearError.SqlError RusqliteError.QueryReturnedNoRows : BearError) =
        BearError.SqlError e) ∨
       ∃ p, (BearError.SqlError RusqliteError.QueryReturnedNoRows : BearError) =
        BearError.PolarsError p) :=
  c6_error_structure ([] : List CatalogEntry) qPrepFail "SELECT 1"
    (BearError.SqlError RusqliteError.QueryReturnedNoRows)
    (BearError.SqlError RusqliteError.QueryReturnedNoRows) (by decide) (by decide)

/-- C7: Gateway prepare hands the connection exactly the combined text:
the view-definition block first, a newline, then the caller query text,
with the block a verbatim prefix and the user text a verbatim suffix of
the combined text; the connection result, error included, is returned
unchanged. -/
theorem c7_gateway_prepend {F : Type} (q : Queryable F) (user_sql : String) :
    Queryable.prepare q user_sql =
      q.conn.prepareStmt (q.normalizing_cte ++ "\n" ++ user_sql)
    ∧ (∃ t, q.normalizing_cte.data ++ t = (q.normalizing_cte ++ "\n" ++ user_sql).data)
    ∧ (∃ s, s ++ user_sql.data = (q.normalizing_cte ++ "\n" ++ user_sql).data) := by
  refine ⟨rfl, ⟨("\n" ++ user_sql).data, ?_⟩, ⟨(q.normalizing_cte ++ "\n").data, ?_⟩⟩ <;>
    simp [string_data_append, List.append_assoc]

/-- C9: build_series returns a column whose length equals the input
buffer length, and every successfully returned Table has exactly one
column per result column name with every column as long as the row
stream — all columns equal length, equal to the number of result rows. -/
theorem c9_table_shape {F : Type} [FloatModel F] (name : String)
    (values : List (ColumnValue F)) (q : Queryable F) (sql : String) (stmt : Stmt F)
    (df : DataFrame F)
    (h1 : q.prepare sql = Except.ok stmt)
    (h2 : query_to_dataframe q sql = Except.ok df) :
    (build_series name values).length = values.length
    ∧ df.columns.length = stmt.column_names.length
    ∧ ∀ c ∈ df.columns, c.length = stmt.rows.length := by
  obtain ⟨hA, hB⟩ := query_ok_shape q sql stmt df h1 h2
  exact ⟨build_series_length name values, hA, hB⟩

/-- Witness for C9 on a one-column one-row statement. -/
theorem c9_witness :
    (build_series (F := Int) "x" [ColumnValue.Integer 1]).length = 1
    ∧ (DataFrame.mk (F := Int) [Column.ints "a" [some 5]]).columns.length = 1
    ∧ ∀ c ∈ (DataFrame.mk (F := Int) [Column.ints "a" [some 5]]).columns, c.length = 1 :=
  c9_table_shape "x" [ColumnValue.Integer 1] qOne "SELECT a" stmtOne
    ⟨[Column.ints "a" [some 5]]⟩ rfl (by decide)

/-- C10: converting a raw cell value to the tagged ColumnValue is total
for every storage kind — each kind maps to its tag, with text bytes
decoded through the from_utf8_lossy model (an invalid byte becomes the
replacement character, never an error) — and no query fails because of
cell content: whenever every row fetch succeeds, tabulization succeeds. -/
theorem c10_cell_conversion {F : Type} [FloatModel F] (bytes b : List Nat) (i : Int) (f : F)
    (q : Queryable F) (sql : String) (stmt : Stmt F) :
    columnValueFrom (ValueRef.Text (F := F) bytes) = ColumnValue.Text (utf8Lossy bytes)
    ∧ columnValueFrom (ValueRef.Null (F := F)) = ColumnValue.Null
    ∧ columnValueFrom (ValueRef.Integer (F := F) i) = ColumnValue.Integer i
    ∧ columnValueFrom (ValueRef.Real f) = ColumnValue.Real f
    ∧ columnValueFrom (ValueRef.Blob (F := F) b) = ColumnValue.Blob b
    ∧ utf8Lossy [0xFF] = String.mk [replacementChar]
    ∧ (q.prepare sql = Except.ok stmt →
        (∀ r ∈ stmt.rows, ∃ v, r = Except.ok v) →
        ∃ df, query_to_dataframe q sql = Except.ok df) :=
  ⟨rfl, rfl, rfl, rfl, rfl, by decide,
   fun hp hall => query_ok_of_rows_ok q sql stmt hp hall⟩

/-- Witness for C10: a query over a non-UTF-8 text cell succeeds. -/
theorem c10_witness :
    ∃ df, query_to_dataframe qBadUtf8 "SELECT t" = Except.ok df :=
  (c10_cell_conversion [] [] 0 (0 : Int) qBadUtf8 "SELECT t" stmtBadUtf8).2.2.2.2.2.2 rfl
    (by intro r hr; simp [stmtBadUtf8] at hr; exact ⟨_, hr⟩)
